import Mathlib

/-!
Shallow embedding of the xilinx-dma repository: the direct-register Xilinx
AXI DMA channel engine (src/unnamed/part_003, the `xilinx_dma_*` functions)
and the AXI4-Stream reader streaming layer built on top of it
(src/axis-reader/axis_reader.c, the `ar_*` / `arf_*` functions).

Hardware register accesses are modelled by oracle inputs: every value the
code reads from a device register is a parameter of the embedded function,
and polls with timeout are parameters telling whether the poll met its
condition within the bound.  Machine integers are modelled as `Nat` (for the
C `u32`/`size_t` values, with explicit wrap-around where the code can
underflow) and `Int` (for the signed `dma_cookie_t`).  Linked-list
`list_move_tail`/`list_add_tail`/`list_del` surgery is modelled on `List`,
head = oldest entry.
-/

namespace XilinxDma

/-- The modulus 2^32 of the C `u32` values used by the drivers. -/
def U32MOD : Nat := 2 ^ 32

/-- C unsigned 32-bit subtraction `a - b` (wraps on underflow); faithful for
`a, b < 2^32`. -/
def u32sub (a b : Nat) : Nat := (U32MOD + a - b) % U32MOD

/-- The `u32 residue = -1` initialiser in `xilinx_dma_tx_status`:
all-ones, the "cookie not found" sentinel. -/
def U32_NEG1 : Nat := U32MOD - 1

/-- Model of `enum xilinx_dma_chan_status` from part_003. -/
inductive ChanStatus where
  | idle
  | busy
  | error
deriving DecidableEq, Repr

/-- Model of `enum dma_transfer_direction`, restricted to the two directions this
driver supports. -/
inductive Direction where
  | devToMem
  | memToDev
deriving DecidableEq, Repr

/-- Model of `enum dma_status` from the dmaengine framework. -/
inductive DmaStatus where
  | complete
  | inProgress
  | paused
  | error
deriving DecidableEq, Repr

/-- Model of `struct xilinx_dma_tx_descriptor` (part_003) fused with the fields of
its embedded `struct dma_async_tx_descriptor` that the driver uses:
the cookie, the physical address `phys`, and whether the completion
callback pointer is still set. -/
structure TxDescriptor where
  cookie : Int
  phys : Nat
  requested_length : Nat
  transferred_length : Nat
  hasCallback : Bool
deriving DecidableEq, Repr

/-- Model of `struct xilinx_dma_chan` (part_003) fused with the cookie counters of
its embedded `struct dma_chan` (`cookie`, `completed_cookie`).
Lists hold their oldest element first (`list_add_tail` appends). -/
structure Chan where
  status : ChanStatus
  pending_transactions : List TxDescriptor
  active_transaction : Option TxDescriptor
  completed_transactions : List TxDescriptor
  cookie : Int
  completed_cookie : Int
  direction : Direction
  max_transaction_length : Nat
deriving DecidableEq, Repr

/-- Model of `xilinx_dma_hw_start` (part_003:435-456): sets the RUN bit and polls for
the HALTED bit to clear.  `startOk` is the poll oracle: `true` when the
hardware left the halted state within `XILINX_DMA_LOOP_COUNT`.  On timeout
the channel status becomes `CHAN_ERROR`; on success `CHAN_IDLE`. -/
def xilinx_dma_hw_start (startOk : Bool) (c : Chan) : Chan :=
  if startOk then { c with status := ChanStatus.idle }
  else { c with status := ChanStatus.error }

/-- Model of `xilinx_dma_start_transfer_irq` (part_003:462-498).  Returns the channel
unchanged unless status is IDLE, the pending list is non-empty and there is
no active transaction.  Programs the head descriptor's address, runs
`xilinx_dma_hw_start`, and only if the status came back IDLE removes the
descriptor from the pending list, sets status BUSY, records it active and
writes its length to the BTT register.  On a start timeout the status check
fails and the function returns with the descriptor still on the pending
list. -/
def xilinx_dma_start_transfer_irq (startOk : Bool) (c : Chan) : Chan :=
  if c.status ≠ ChanStatus.idle ∨ c.pending_transactions = [] then c
  else if c.active_transaction ≠ none then c
  else
    match c.pending_transactions with
    | [] => c
    | transaction :: rest =>
      let c1 := xilinx_dma_hw_start startOk c
      if c1.status ≠ ChanStatus.idle then c1
      else
        { c1 with
          pending_transactions := rest
          status := ChanStatus.busy
          active_transaction := some transaction }

/-- Model of `xilinx_dma_hw_halt` (part_003:402-429): clears the RUN bit, polls for
HALTED (`haltOk` oracle); on timeout only warns.  Either way the channel
status is set to `CHAN_IDLE` at the end. -/
def xilinx_dma_hw_halt (_haltOk : Bool) (c : Chan) : Chan :=
  { c with status := ChanStatus.idle }

/-- Model of `xilinx_dma_free_descriptors` (part_003:307-320): frees every descriptor
on the pending list, every descriptor on the completed list, and the active
descriptor, nulling the active reference. -/
def xilinx_dma_free_descriptors (c : Chan) : Chan :=
  { c with
    pending_transactions := []
    completed_transactions := []
    active_transaction := none }

/-- Model of `xilinx_dma_terminate_all` (part_003:848-859): best-effort hardware halt
followed by `xilinx_dma_free_descriptors`. -/
def xilinx_dma_terminate_all (haltOk : Bool) (c : Chan) : Chan :=
  xilinx_dma_free_descriptors (xilinx_dma_hw_halt haltOk c)

/-- Model of `dma_async_is_complete` from the dmaengine framework (dmaengine.h),
called by `dma_cookie_status`: decides completion from the channel's last
used and last completed cookies, handling cookie wrap-around. -/
def dma_async_is_complete (cookie last_complete last_used : Int) : DmaStatus :=
  if last_complete ≤ last_used then
    if cookie ≤ last_complete ∨ cookie > last_used then DmaStatus.complete
    else DmaStatus.inProgress
  else
    if cookie ≤ last_complete ∧ cookie > last_used then DmaStatus.complete
    else DmaStatus.inProgress

/-- The reverse scan of the completed list in `xilinx_dma_tx_status`
(part_003:375-381): `list_for_each_entry_reverse` visits the newest entry
(tail) first and stops at the first descriptor carrying `cookie`, taking
`requested_length - transferred_length` (u32 arithmetic) as the residue.
The scan operates on the reversed completed list; the residue keeps its
initial all-ones value when no entry matches. -/
def tx_status_scan (cookie : Int) : List TxDescriptor → Nat
  | [] => U32_NEG1
  | d :: rest =>
    if d.cookie = cookie then u32sub d.requested_length d.transferred_length
    else tx_status_scan cookie rest

/-- Model of `xilinx_dma_tx_status` (part_003:341-396).  `bttRead` is the oracle for
the live read of the byte-transfer-count register.  If the cookie names the
active transaction, reports `DMA_IN_PROGRESS` with residue
`requested_length - BTT` computed live.  Otherwise scans the completed list
newest-first for the cookie, reports the status computed by
`dma_cookie_status` from the channel's cookie counters, and the residue
recorded for the match — or all-ones (`u32 -1`) when the cookie is not
retained. -/
def xilinx_dma_tx_status (bttRead : Nat) (cookie : Int) (c : Chan) :
    DmaStatus × Nat :=
  match c.active_transaction with
  | some a =>
    if a.cookie = cookie then
      (DmaStatus.inProgress, u32sub a.requested_length bttRead)
    else
      (dma_async_is_complete cookie c.completed_cookie c.cookie,
       tx_status_scan cookie c.completed_transactions.reverse)
  | none =>
    (dma_async_is_complete cookie c.completed_cookie c.cookie,
     tx_status_scan cookie c.completed_transactions.reverse)

/-- Model of `XILINX_DMA_TX_HISTORY` (part_003:70): retention bound of the completed
history. -/
def XILINX_DMA_TX_HISTORY : Nat := 32

/-- The callback walk in `xilinx_dma_chan_tx_completed_cleanup`
(part_003:528-541): for each completed descriptor whose callback pointer is
still set, invoke it and clear the pointer.  Returns the updated list
together with the descriptors whose callback was invoked, in walk order. -/
def cleanup_run_callbacks :
    List TxDescriptor → List TxDescriptor × List TxDescriptor
  | [] => ([], [])
  | d :: rest =>
    let (rest', invoked) := cleanup_run_callbacks rest
    if d.hasCallback then ({ d with hasCallback := false } :: rest', d :: invoked)
    else (d :: rest', invoked)

/-- The eviction loop in `xilinx_dma_chan_tx_completed_cleanup`
(part_003:546-562): while `count > XILINX_DMA_TX_HISTORY`, remove the first
(oldest) completed descriptor, run its dependencies and free it.  Returns
the surviving list and the evicted descriptors, oldest first. -/
def cleanup_evict (count : Nat) (l : List TxDescriptor) :
    List TxDescriptor × List TxDescriptor :=
  if count > XILINX_DMA_TX_HISTORY then
    match l with
    | [] => ([], [])
    | d :: rest =>
      let (kept, evicted) := cleanup_evict (count - 1) rest
      (kept, d :: evicted)
  else (l, [])
termination_by count

/-- Model of `xilinx_dma_chan_tx_completed_cleanup` (part_003:517-565): runs the
still-set callbacks (clearing each after its invocation), counting the
completed descriptors, then evicts the oldest descriptors while the count
exceeds `XILINX_DMA_TX_HISTORY`.  Result: the updated channel, the list of
descriptors whose callback this run invoked, and the list of evicted
descriptors (each has `dma_run_dependencies` run before it is freed). -/
def xilinx_dma_chan_tx_completed_cleanup (c : Chan) :
    Chan × List TxDescriptor × List TxDescriptor :=
  let (walked, invoked) := cleanup_run_callbacks c.completed_transactions
  let count := c.completed_transactions.length
  let (kept, evicted) := cleanup_evict count walked
  ({ c with completed_transactions := kept }, invoked, evicted)

/-- One `struct scatterlist` entry as this driver reads it:
`sg_dma_address` and `sg_dma_len`. -/
structure SgEntry where
  dma_address : Nat
  dma_length : Nat
deriving DecidableEq, Repr

/-- Model of `xilinx_dma_prep_slave_sg` (part_003:789-839): returns no descriptor
when the requested direction differs from the channel's, when the
scatterlist has a number of entries other than one, or when the first
entry's length exceeds `max_transaction_length`; otherwise builds a fresh
descriptor carrying the entry's address and length, zero transferred
length, no cookie yet, and a NULL callback pointer (the client installs
the callback on the returned descriptor before submitting). -/
def xilinx_dma_prep_slave_sg (c : Chan) (sgl : List SgEntry)
    (direction : Direction) : Option TxDescriptor :=
  if direction ≠ c.direction then none
  else if sgl.length ≠ 1 then none
  else
    match sgl with
    | [] => none
    | sg :: _ =>
      if sg.dma_length > c.max_transaction_length then none
      else
        some { cookie := 0
               phys := sg.dma_address
               requested_length := sg.dma_length
               transferred_length := 0
               hasCallback := false }

/-- Model of `DMA_MIN_COOKIE` from the dmaengine framework. -/
def DMA_MIN_COOKIE : Int := 1

/-- Model of `dma_cookie_assign` (dmaengine.h): increments the channel's s32 cookie
counter (wrapping at 2^31), clamping to `DMA_MIN_COOKIE` after overflow,
and returns the new value. -/
def dma_cookie_assign (chanCookie : Int) : Int :=
  let cookie := chanCookie + 1
  let cookie := if cookie ≥ 2 ^ 31 then cookie - 2 ^ 32 else cookie
  if cookie < DMA_MIN_COOKIE then DMA_MIN_COOKIE else cookie

/-- Model of `xilinx_dma_tx_submit` (part_003:734-774).  If the channel is in
`CHAN_ERROR` it first attempts a hardware reset (`resetOk` oracle for the
reset poll); a failed reset frees the descriptor and returns `-EIO`.
Otherwise assigns the next cookie to the descriptor, appends it to the tail
of the pending list, and returns the cookie. -/
def xilinx_dma_tx_submit (resetOk : Bool) (d : TxDescriptor) (c : Chan) :
    Int × Chan :=
  let go : Chan → Int × Chan := fun ch =>
    let cookie := dma_cookie_assign ch.cookie
    (cookie,
     { ch with
       cookie := cookie
       pending_transactions :=
         ch.pending_transactions ++ [{ d with cookie := cookie }] })
  if c.status = ChanStatus.error then
    if resetOk then go { c with status := ChanStatus.idle }
    else (-5, c)
  else go c

/-- The max-transfer-length discovery step of `xilinx_dma_chan_probe`
(part_003:937-960), run right after the channel's hardware reset: writes
all-ones to the byte-transfer-count register, reads it back as the maximum
transaction length, writes zero back; a read-back of zero is a fatal
`-EIO` probe failure.  `resetOk` is the oracle for the reset poll in
`xilinx_dma_hw_reset` (a failed reset aborts the probe with `-EBUSY`
before the discovery runs); `bttReadback` is the oracle for the register
read-back.  On success returns the discovered maximum.  The first
component records the sequence of writes issued to the BTT register. -/
def xilinx_dma_chan_probe_discovery (resetOk : Bool) (bttReadback : Nat) :
    List Nat × Except Int Nat :=
  if ¬ resetOk then ([], Except.error (-16))
  else if bttReadback = 0 then
    ([0xFFFFFFFF, 0], Except.error (-5))
  else
    ([0xFFFFFFFF, 0], Except.ok bttReadback)

/-- Clearing a descriptor's callback reference, as the completion
processor does after invoking it. -/
def clear_callback (d : TxDescriptor) : TxDescriptor :=
  { d with hasCallback := false }

/-- A concrete descriptor, used to instantiate the theorems below. -/
def sampleDesc : TxDescriptor :=
  { cookie := 2
    phys := 0x10000
    requested_length := 1000
    transferred_length := 0
    hasCallback := true }

/-- A concrete idle channel whose pending queue holds `sampleDesc`. -/
def sampleChan : Chan :=
  { status := ChanStatus.idle
    pending_transactions := [sampleDesc]
    active_transaction := none
    completed_transactions := []
    cookie := 2
    completed_cookie := 1
    direction := Direction.devToMem
    max_transaction_length := 8388607 }

/-- A concrete channel with one entry in the completed history, used to
instantiate the theorems below. -/
def sampleChanCompleted : Chan :=
  { status := ChanStatus.idle
    pending_transactions := []
    active_transaction := none
    completed_transactions :=
      [{ cookie := 1
         phys := 0x20000
         requested_length := 500
         transferred_length := 400
         hasCallback := false }]
    cookie := 2
    completed_cookie := 1
    direction := Direction.devToMem
    max_transaction_length := 8388607 }

/-- A concrete completed descriptor with a still-set callback. -/
def sampleCbDesc : TxDescriptor :=
  { cookie := 3
    phys := 0x40000
    requested_length := 800
    transferred_length := 800
    hasCallback := true }

/-- A concrete channel whose completed history holds `sampleCbDesc`
(callback set) and one older callback-free descriptor. -/
def sampleCleanupChan : Chan :=
  { status := ChanStatus.idle
    pending_transactions := []
    active_transaction := none
    completed_transactions :=
      [{ cookie := 1
         phys := 0x20000
         requested_length := 500
         transferred_length := 400
         hasCallback := false },
       sampleCbDesc]
    cookie := 3
    completed_cookie := 3
    direction := Direction.devToMem
    max_transaction_length := 8388607 }

end XilinxDma

namespace AxisReader

open XilinxDma (DmaStatus u32sub U32MOD)

/-- The modulus 2^64 of the C `size_t`/`unsigned long` values. -/
def U64MOD : Nat := 2 ^ 64

/-- C unsigned 64-bit subtraction `a - b` (wraps on underflow). -/
def u64sub (a b : Nat) : Nat := (U64MOD + a - b) % U64MOD

/-- Model of `struct ar_transaction` (axis_reader.c:63-73).  `id` stands for the
identity of the allocated object (each transaction is a distinct
allocation); the `dma_buffer` contents themselves are not modelled. -/
structure ArTransaction where
  id : Nat
  dma_cookie : Int
  dma_buffer_len : Nat
  dma_completed_len : Nat
deriving DecidableEq, Repr

/-- Model of `struct ar_channel` (axis_reader.c:75-100): the open flag, the three
transaction lists (head = oldest, `list_move_tail` appends), and the status
counters. -/
structure ArChannel where
  is_open : Bool
  free_transactions : List ArTransaction
  pending_transactions : List ArTransaction
  completed_transactions : List ArTransaction
  status_dropped : Nat
  status_dropped_bytes : Nat
  status_completed : Nat
  status_completed_bytes : Nat
  status_error : Nat
deriving DecidableEq, Repr

/-- Model of `ar_transaction_callback` (axis_reader.c:120-232), run by the DMA
engine's completion processor for transaction `tx` (the
`callback_param`).  Oracles: `st` and `residue` are what
`dmaengine_tx_status` reported for `tx`'s cookie (`residue` is the `u32`
field of `struct dma_tx_state`, so the code's `state.residue < 0` check
compares an unsigned value against zero), and `submitErr` tells whether
resubmitting the replacement transaction failed.

If the status is not `DMA_COMPLETE` (or the unsigned residue is negative,
which cannot happen), the transaction moves from pending to the free-list
tail and the error counter is incremented — nothing is resubmitted.
Otherwise the completed length is set to `dma_buffer_len - residue` (u32
arithmetic), the transaction moves to the completed-list tail, and a
replacement is sought: the head of the free list, or — when free is
empty — the second entry of the completed list, never the first,
incrementing the dropped counters; when free is empty and the completed
list is empty or singular, the error counter is incremented and no
replacement is resubmitted.  The replacement moves to the pending-list
tail and is resubmitted; a submit failure moves it to the free-list tail
and increments the error counter. -/
def ar_transaction_callback (st : DmaStatus) (residue : Nat)
    (submitErr : Bool) (tx : ArTransaction) (ch : ArChannel) : ArChannel :=
  if st ≠ DmaStatus.complete ∨ residue < 0 then
    { ch with
      pending_transactions := ch.pending_transactions.erase tx
      free_transactions := ch.free_transactions ++ [tx]
      status_error := ch.status_error + 1 }
  else
    let tx1 := { tx with dma_completed_len := u32sub tx.dma_buffer_len residue }
    let pending1 := ch.pending_transactions.erase tx
    let completed1 := ch.completed_transactions ++ [tx1]
    let finish : ArChannel → ArTransaction → ArChannel := fun ch1 txNext =>
      if submitErr then
        { ch1 with
          pending_transactions := ch1.pending_transactions.erase txNext
          free_transactions := ch1.free_transactions ++ [txNext]
          status_error := ch1.status_error + 1 }
      else ch1
    match ch.free_transactions with
    | [] =>
      match completed1 with
      | [] =>
        { ch with
          pending_transactions := pending1
          completed_transactions := completed1
          status_error := ch.status_error + 1 }
      | [only] =>
        { ch with
          pending_transactions := pending1
          completed_transactions := [only]
          status_error := ch.status_error + 1 }
      | oldest :: txNext :: rest =>
        finish
          { ch with
            pending_transactions := pending1 ++ [txNext]
            completed_transactions := oldest :: rest
            free_transactions := []
            status_dropped := ch.status_dropped + 1
            status_dropped_bytes :=
              ch.status_dropped_bytes + txNext.dma_completed_len }
          txNext
    | txNext :: freeRest =>
      finish
        { ch with
          pending_transactions := pending1 ++ [txNext]
          completed_transactions := completed1
          free_transactions := freeRest }
        txNext

/-- The counting loop `list_count` (axis_reader.c:325-332). -/
def list_count (l : List ArTransaction) : Nat := l.length

/-- Result of `arf_open`.  `ok` carries the two transactions the open
submitted to the DMA engine, in submission order. -/
inductive OpenResult where
  | ebusy
  | efault
  | ok (tx1 tx2 : ArTransaction)
deriving DecidableEq, Repr

/-- Model of `arf_open` (axis_reader.c:334-369): fails with `-EBUSY` when the
channel is already open, with `-EFAULT` when fewer than two transactions
sit on the free list; otherwise moves the first two free transactions to
the pending-list tail, submits both and issues pending work, and marks the
channel open. -/
def arf_open (ch : ArChannel) : OpenResult × ArChannel :=
  if ch.is_open then (OpenResult.ebusy, ch)
  else if list_count ch.free_transactions < 2 then (OpenResult.efault, ch)
  else
    match ch.free_transactions with
    | tx1 :: tx2 :: rest =>
      (OpenResult.ok tx1 tx2,
       { ch with
         free_transactions := rest
         pending_transactions := ch.pending_transactions ++ [tx1, tx2]
         is_open := true })
    | _ => (OpenResult.efault, ch)

/-- Result of `arf_read`.  `blocked` stands for the blocking wait taken
when the completed list is empty and `O_NONBLOCK` is clear: the call does
not return until an external completion or signal arrives, so within this
one-call model no result is produced and the channel is unchanged. -/
inductive ReadResult where
  | blocked
  | eagain
  | einval
  | eio
  | ok (n : Nat)
deriving DecidableEq, Repr

/-- Model of `arf_read` (axis_reader.c:398-485).  `nonblock` is `O_NONBLOCK`,
`len` the caller's buffer length, `offset` the file position, and
`copyFails` the oracle for `copy_to_user` returning a nonzero remainder.

With an empty completed list: `-EAGAIN` under `O_NONBLOCK`, otherwise the
call blocks.  Otherwise the oldest completed transaction is peeked; if the
remaining capacity `len - offset` (size_t arithmetic) is smaller than its
completed length the call fails with `-EINVAL` leaving the list untouched.
Otherwise the transaction is detached, its bytes copied out, and it is
prepended to the free list (`list_add`); a copy failure yields `-EIO`
(with the transaction already recycled) and increments the error counter;
success returns the completed length. -/
def arf_read (nonblock : Bool) (len offset : Nat) (copyFails : Bool)
    (ch : ArChannel) : ReadResult × ArChannel :=
  match ch.completed_transactions with
  | [] =>
    if nonblock then (ReadResult.eagain, ch) else (ReadResult.blocked, ch)
  | tx :: rest =>
    let txlen := tx.dma_completed_len
    if u64sub len offset < txlen then (ReadResult.einval, ch)
    else
      let ch1 := { ch with
        completed_transactions := rest
        free_transactions := tx :: ch.free_transactions }
      if copyFails then
        (ReadResult.eio, { ch1 with status_error := ch1.status_error + 1 })
      else (ReadResult.ok txlen, ch1)

/-- A concrete streaming transaction used to instantiate theorems. -/
def sampleArTx : ArTransaction :=
  { id := 0
    dma_cookie := 2
    dma_buffer_len := 1000
    dma_completed_len := 0 }

/-- A concrete streaming channel with `sampleArTx` pending and nothing free
or completed. -/
def sampleArChan : ArChannel :=
  { is_open := true
    free_transactions := []
    pending_transactions := [sampleArTx]
    completed_transactions := []
    status_dropped := 0
    status_dropped_bytes := 0
    status_completed := 0
    status_completed_bytes := 0
    status_error := 0 }

/-- A second concrete streaming transaction, sitting oldest on the
completed list. -/
def sampleOldTx : ArTransaction :=
  { id := 1
    dma_cookie := 1
    dma_buffer_len := 1000
    dma_completed_len := 700 }

/-- A concrete streaming channel with no free transaction, `sampleArTx`
pending and `sampleOldTx` completed. -/
def sampleStealChan : ArChannel :=
  { is_open := true
    free_transactions := []
    pending_transactions := [sampleArTx]
    completed_transactions := [sampleOldTx]
    status_dropped := 0
    status_dropped_bytes := 0
    status_completed := 0
    status_completed_bytes := 0
    status_error := 0 }

/-- A concrete streaming transaction with 500 completed bytes. -/
def sampleReadTx : ArTransaction :=
  { id := 2
    dma_cookie := 3
    dma_buffer_len := 1000
    dma_completed_len := 500 }

/-- A concrete streaming channel whose completed list holds exactly
`sampleReadTx`. -/
def sampleReadChan : ArChannel :=
  { is_open := true
    free_transactions := []
    pending_transactions := []
    completed_transactions := [sampleReadTx]
    status_dropped := 0
    status_dropped_bytes := 0
    status_completed := 0
    status_completed_bytes := 0
    status_error := 0 }

/-- A concrete closed streaming channel with two free transactions. -/
def sampleOpenChan : ArChannel :=
  { is_open := false
    free_transactions := [sampleArTx, sampleOldTx]
    pending_transactions := []
    completed_transactions := []
    status_dropped := 0
    status_dropped_bytes := 0
    status_completed := 0
    status_completed_bytes := 0
    status_error := 0 }

end AxisReader

namespace XilinxDma

theorem u32sub_eq_sub {a b : Nat} (hb : b ≤ a) (ha : a < U32MOD) :
    u32sub a b = a - b := by
  unfold u32sub U32MOD at *
  omega

/-- C1 (counterexample): on a start-poll timeout,
`xilinx_dma_start_transfer_irq` leaves the head descriptor ON the pending
queue — refuting the claim that the descriptor is no longer in the pending
queue after a timeout.  At the concrete idle channel with pending =
`[sampleDesc]`, the timeout run ends in ERROR with `sampleDesc` still in
the pending list. -/
theorem start_transfer_irq_timeout_keeps_pending_cex :
    (xilinx_dma_start_transfer_irq false sampleChan).status = ChanStatus.error ∧
    sampleDesc ∈ (xilinx_dma_start_transfer_irq false sampleChan).pending_transactions := by
  decide

/-- C1: for every `issue_pending` run with channel state IDLE, a non-empty
pending queue and no active transaction: if the bounded poll for the
hardware to leave the halted state times out, the channel state becomes
ERROR and the head descriptor remains at the head of the pending queue;
on success the state becomes BUSY, the head descriptor is removed from the
pending queue and becomes the active transaction. -/
theorem start_transfer_irq_idle_nonempty (startOk : Bool) (c : Chan)
    (t : TxDescriptor) (rest : List TxDescriptor)
    (hs : c.status = ChanStatus.idle)
    (hp : c.pending_transactions = t :: rest)
    (ha : c.active_transaction = none) :
    (startOk = false →
      (xilinx_dma_start_transfer_irq startOk c).status = ChanStatus.error ∧
      (xilinx_dma_start_transfer_irq startOk c).pending_transactions = t :: rest) ∧
    (startOk = true →
      (xilinx_dma_start_transfer_irq startOk c).status = ChanStatus.busy ∧
      (xilinx_dma_start_transfer_irq startOk c).active_transaction = some t ∧
      (xilinx_dma_start_transfer_irq startOk c).pending_transactions = rest) := by
  unfold xilinx_dma_start_transfer_irq xilinx_dma_hw_start
  cases startOk <;> simp [hs, hp, ha]

/-- C1 (witness): the successful-start half of
`start_transfer_irq_idle_nonempty` evaluated at the concrete channel. -/
theorem start_transfer_irq_idle_nonempty_witness :
    (xilinx_dma_start_transfer_irq true sampleChan).status = ChanStatus.busy ∧
    (xilinx_dma_start_transfer_irq true sampleChan).active_transaction = some sampleDesc ∧
    (xilinx_dma_start_transfer_irq true sampleChan).pending_transactions = [] :=
  (start_transfer_irq_idle_nonempty true sampleChan sampleDesc [] rfl rfl rfl).2 rfl

/-- C2 (counterexample): `xilinx_dma_terminate_all` does NOT leave the
completed-history list unchanged: at a concrete channel holding one
completed descriptor, the history after terminate differs from the history
before (it has been freed). -/
theorem terminate_all_clears_completed_cex :
    (xilinx_dma_terminate_all true sampleChanCompleted).completed_transactions ≠
      sampleChanCompleted.completed_transactions := by
  decide

/-- C2: after every `xilinx_dma_terminate_all` call the pending queue is
empty and the active-transaction reference is null — and the
completed-history list is discarded (emptied) as well, not left for the
caller. -/
theorem terminate_all_clears_all (haltOk : Bool) (c : Chan) :
    (xilinx_dma_terminate_all haltOk c).pending_transactions = [] ∧
    (xilinx_dma_terminate_all haltOk c).active_transaction = none ∧
    (xilinx_dma_terminate_all haltOk c).completed_transactions = [] := by
  simp [xilinx_dma_terminate_all, xilinx_dma_free_descriptors, xilinx_dma_hw_halt]

end XilinxDma

namespace AxisReader

open XilinxDma (DmaStatus u32sub u32sub_eq_sub U32MOD)

/-- C3: in the streaming completion callback, when the completion-status
check observes a violation (status not cleanly `DMA_COMPLETE`; the
negative-residue arm compares an unsigned value and cannot fire), the
transaction is moved to the free list, the error counter is incremented,
and nothing is resubmitted for that slot.  When the check passes and the
residue reported for the cleanly completed transfer is at most the
requested buffer length, every descriptor on the completed list — the
just-completed one included — satisfies
`dma_completed_len ≤ dma_buffer_len` (the `0 ≤` half is inherent to the
unsigned length). -/
theorem ar_callback_error_flag_and_completed_invariant (st : DmaStatus)
    (residue : Nat) (submitErr : Bool) (tx : ArTransaction) (ch : ArChannel) :
    (st ≠ DmaStatus.complete →
      ar_transaction_callback st residue submitErr tx ch =
        { ch with
          pending_transactions := ch.pending_transactions.erase tx
          free_transactions := ch.free_transactions ++ [tx]
          status_error := ch.status_error + 1 }) ∧
    (st = DmaStatus.complete → residue ≤ tx.dma_buffer_len →
      tx.dma_buffer_len < U32MOD →
      (∀ d ∈ ch.completed_transactions, d.dma_completed_len ≤ d.dma_buffer_len) →
      ∀ d ∈ (ar_transaction_callback st residue submitErr tx ch).completed_transactions,
        d.dma_completed_len ≤ d.dma_buffer_len) := by
  constructor
  · intro hst
    simp [ar_transaction_callback, hst]
  · intro hst hres hlen hinv
    subst hst
    have hle : u32sub tx.dma_buffer_len residue ≤ tx.dma_buffer_len := by
      rw [u32sub_eq_sub hres hlen]
      omega
    have hmem : ∀ d ∈ (ar_transaction_callback DmaStatus.complete residue
        submitErr tx ch).completed_transactions,
        d ∈ ch.completed_transactions ∨
        d = { tx with dma_completed_len := u32sub tx.dma_buffer_len residue } := by
      unfold ar_transaction_callback
      simp only [ne_eq, not_true_eq_false, Nat.not_lt_zero, or_self, if_false,
        ite_false]
      rcases hfree : ch.free_transactions with _ | ⟨f0, fr⟩
      · rcases hcomp : ch.completed_transactions with _ | ⟨c0, cr⟩
        · simp
        · rcases cr with _ | ⟨c1, cr'⟩
          · cases submitErr <;> (intro d hd; simp at hd ⊢; tauto)
          · cases submitErr <;> (intro d hd; simp at hd ⊢; tauto)
      · cases submitErr <;> (intro d hd; simp at hd ⊢; tauto)
    intro d hd
    rcases hmem d hd with h | h
    · exact hinv d h
    · rw [h]
      exact hle

/-- C3 (witness): the invariant half of
`ar_callback_error_flag_and_completed_invariant` at a concrete cleanly
completed transfer (residue 100 of 1000 requested): the descriptor entered
into the completed history respects `dma_completed_len ≤ dma_buffer_len`. -/
theorem ar_callback_completed_invariant_witness :
    u32sub 1000 100 ≤ 1000 :=
  (ar_callback_error_flag_and_completed_invariant DmaStatus.complete 100 false
      sampleArTx sampleArChan).2 rfl (by decide) (by decide) (by decide)
    { sampleArTx with dma_completed_len := u32sub 1000 100 } (by decide)

/-- C4: in the streaming completion callback with an empty free list:
when (after the just-completed transaction has joined the completed-list
tail) the completed list is empty or singular — i.e. it was empty before —
the error counter is incremented and no replacement is appended to the
pending list; when it holds at least two entries, the replacement is the
second-oldest entry, never the oldest (which stays at the head), the
dropped counter is incremented by one and the dropped-bytes counter by the
stolen transaction's completed length, and (when the resubmit does not
fail) the stolen transaction is appended to the pending list. -/
theorem ar_callback_steal_second_oldest (residue : Nat) (submitErr : Bool)
    (tx : ArTransaction) (ch : ArChannel)
    (hfree : ch.free_transactions = []) :
    (ch.completed_transactions = [] →
      ar_transaction_callback DmaStatus.complete residue submitErr tx ch =
        { ch with
          pending_transactions := ch.pending_transactions.erase tx
          completed_transactions :=
            [{ tx with dma_completed_len := u32sub tx.dma_buffer_len residue }]
          status_error := ch.status_error + 1 }) ∧
    (∀ oldest txNext rest,
      ch.completed_transactions ++
          [{ tx with dma_completed_len := u32sub tx.dma_buffer_len residue }] =
        oldest :: txNext :: rest →
      (ar_transaction_callback DmaStatus.complete residue submitErr tx
          ch).status_dropped = ch.status_dropped + 1 ∧
      (ar_transaction_callback DmaStatus.complete residue submitErr tx
          ch).status_dropped_bytes =
        ch.status_dropped_bytes + txNext.dma_completed_len ∧
      (ar_transaction_callback DmaStatus.complete residue submitErr tx
          ch).completed_transactions = oldest :: rest ∧
      (submitErr = false →
        (ar_transaction_callback DmaStatus.complete residue submitErr tx
            ch).pending_transactions =
          ch.pending_transactions.erase tx ++ [txNext])) := by
  constructor
  · intro hcomp
    unfold ar_transaction_callback
    simp [hfree, hcomp]
  · intro oldest txNext rest hshape
    unfold ar_transaction_callback
    simp only [ne_eq, not_true_eq_false, Nat.not_lt_zero, or_self, if_false,
      ite_false]
    rw [hfree, hshape]
    cases submitErr <;> simp

/-- C4 (witness): with no free transaction and one prior completed entry,
the callback for `sampleArTx` (residue 0) steals the second-oldest
completed entry — the just-completed transaction itself — incrementing
dropped by one and dropped-bytes by its 1000 completed bytes, while
`sampleOldTx` stays on the completed list. -/
theorem ar_callback_steal_second_oldest_witness :
    (ar_transaction_callback DmaStatus.complete 0 false sampleArTx
        sampleStealChan).status_dropped = 1 ∧
    (ar_transaction_callback DmaStatus.complete 0 false sampleArTx
        sampleStealChan).status_dropped_bytes = 1000 ∧
    (ar_transaction_callback DmaStatus.complete 0 false sampleArTx
        sampleStealChan).completed_transactions = [sampleOldTx] :=
  have h := (ar_callback_steal_second_oldest 0 false sampleArTx sampleStealChan
      rfl).2 sampleOldTx
    { sampleArTx with dma_completed_len := u32sub sampleArTx.dma_buffer_len 0 }
    [] rfl
  ⟨h.1, h.2.1, h.2.2.1⟩

theorem u64sub_zero {len : Nat} (h : len < U64MOD) : u64sub len 0 = len := by
  unfold u64sub U64MOD at *
  omega

/-- C5: the streaming read: with an empty completed list and `O_NONBLOCK`
it fails immediately with `-EAGAIN` and no state change; with a ready
oldest completed transaction whose completed length exceeds the caller's
capacity it fails with `-EINVAL` without consuming the transaction; with
adequate capacity (and a successful copy-out) it removes exactly that one
transaction, returns it to the free list, and returns its completed
length. -/
theorem arf_read_contract (nonblock copyFails : Bool) (len : Nat)
    (ch : ArChannel) (hlen : len < U64MOD) :
    (ch.completed_transactions = [] → nonblock = true →
      arf_read nonblock len 0 copyFails ch = (ReadResult.eagain, ch)) ∧
    (∀ tx rest, ch.completed_transactions = tx :: rest →
      (len < tx.dma_completed_len →
        arf_read nonblock len 0 copyFails ch = (ReadResult.einval, ch)) ∧
      (tx.dma_completed_len ≤ len → copyFails = false →
        arf_read nonblock len 0 copyFails ch =
          (ReadResult.ok tx.dma_completed_len,
           { ch with
             completed_transactions := rest
             free_transactions := tx :: ch.free_transactions }))) := by
  have h0 : u64sub len 0 = len := u64sub_zero hlen
  refine ⟨?_, ?_⟩
  · intro hcomp hnb
    unfold arf_read
    rw [hcomp, hnb]
    simp
  · intro tx rest hcomp
    constructor
    · intro hlt
      unfold arf_read
      rw [hcomp]
      simp [h0, hlt]
    · intro hge hcf
      unfold arf_read
      rw [hcomp, hcf]
      simp [h0, Nat.not_lt.2 hge]

/-- C5 (witness): reading 1000 bytes of capacity against a ready 500-byte
unit succeeds, consumes the unit into the free list, and returns 500. -/
theorem arf_read_contract_witness :
    arf_read false 1000 0 false sampleReadChan =
      (ReadResult.ok 500,
       { sampleReadChan with
         completed_transactions := []
         free_transactions := [sampleReadTx] }) :=
  ((arf_read_contract false false 1000 sampleReadChan (by decide)).2
      sampleReadTx [] rfl).2 (by decide) rfl

end AxisReader

namespace XilinxDma

theorem tx_status_scan_not_found (ck : Int) (l : List TxDescriptor)
    (h : ∀ d ∈ l, d.cookie ≠ ck) : tx_status_scan ck l = U32_NEG1 := by
  induction l with
  | nil => rfl
  | cons e rest ih =>
    unfold tx_status_scan
    rw [if_neg (h e (by simp))]
    exact ih fun d hd => h d (by simp [hd])

theorem tx_status_scan_found (ck : Int) (l : List TxDescriptor)
    (d : TxDescriptor) (hmem : d ∈ l) (hck : d.cookie = ck)
    (hnd : l.Pairwise fun a b => a.cookie ≠ b.cookie) :
    tx_status_scan ck l = u32sub d.requested_length d.transferred_length := by
  induction l with
  | nil => cases hmem
  | cons e rest ih =>
    unfold tx_status_scan
    rcases List.mem_cons.1 hmem with he | hrest
    · subst he
      rw [if_pos hck]
    · have hne : ¬ e.cookie = ck := fun h =>
        (List.pairwise_cons.1 hnd).1 d hrest (by rw [h, hck])
      rw [if_neg hne]
      exact ih hrest (List.pairwise_cons.1 hnd).2

/-- C6: the status query: when the cookie names the active transaction the
call reports `DMA_IN_PROGRESS` with residue `requested_length - BTT`
computed live from the byte-count register; otherwise, when the cookie
names a retained completed descriptor (cookies being distinct across the
retained history), the reported residue is exactly the recorded
`requested_length - transferred_length`; and when the cookie matches no
retained descriptor the reported residue is the all-ones not-found
sentinel (`u32 -1`), never a stale value. -/
theorem tx_status_correct (btt : Nat) (ck : Int) (c : Chan) :
    (∀ a, c.active_transaction = some a → a.cookie = ck →
      xilinx_dma_tx_status btt ck c =
        (DmaStatus.inProgress, u32sub a.requested_length btt)) ∧
    ((∀ a, c.active_transaction = some a → a.cookie ≠ ck) →
      ((c.completed_transactions.Pairwise fun d e => d.cookie ≠ e.cookie) →
        ∀ d ∈ c.completed_transactions, d.cookie = ck →
          d.transferred_length ≤ d.requested_length →
          d.requested_length < U32MOD →
          (xilinx_dma_tx_status btt ck c).2 =
            d.requested_length - d.transferred_length) ∧
      ((∀ d ∈ c.completed_transactions, d.cookie ≠ ck) →
        (xilinx_dma_tx_status btt ck c).2 = U32_NEG1)) := by
  have hfound : (c.completed_transactions.Pairwise
        fun d e => d.cookie ≠ e.cookie) →
      ∀ d ∈ c.completed_transactions, d.cookie = ck →
        d.transferred_length ≤ d.requested_length →
        d.requested_length < U32MOD →
        tx_status_scan ck c.completed_transactions.reverse =
          d.requested_length - d.transferred_length := by
    intro hnd d hmem hck hle hlt
    rw [tx_status_scan_found ck c.completed_transactions.reverse d
        (List.mem_reverse.2 hmem) hck
        (List.pairwise_reverse.2 (hnd.imp fun h => Ne.symm h))]
    exact u32sub_eq_sub hle hlt
  have hnone : (∀ d ∈ c.completed_transactions, d.cookie ≠ ck) →
      tx_status_scan ck c.completed_transactions.reverse = U32_NEG1 := by
    intro h
    exact tx_status_scan_not_found ck _ fun d hd => h d (List.mem_reverse.1 hd)
  unfold xilinx_dma_tx_status
  rcases ha : c.active_transaction with _ | a
  · refine ⟨fun a h => ?_, fun _ => ⟨fun hnd d hd => hfound hnd d hd,
      fun h => hnone h⟩⟩
    cases h
  · constructor
    · intro a' h hck
      cases h
      dsimp only
      rw [if_pos hck]
    · intro hact
      dsimp only
      simp only [if_neg (hact a rfl)]
      exact ⟨fun hnd d hd => hfound hnd d hd, fun h => hnone h⟩

/-- C6 (witness): at the concrete channel whose completed history records
a 500-byte request with 400 bytes transferred under cookie 1, querying
cookie 1 reports residue 100. -/
theorem tx_status_correct_witness :
    (xilinx_dma_tx_status 0 1 sampleChanCompleted).2 = 100 :=
  ((tx_status_correct 0 1 sampleChanCompleted).2 (by simp [sampleChanCompleted])).1
    (by decide)
    { cookie := 1
      phys := 0x20000
      requested_length := 500
      transferred_length := 400
      hasCallback := false }
    (by decide) rfl (by decide) (by decide)

theorem cleanup_run_callbacks_eq (l : List TxDescriptor) :
    cleanup_run_callbacks l =
      (l.map clear_callback, l.filter fun d => d.hasCallback) := by
  induction l with
  | nil => rfl
  | cons d rest ih =>
    unfold cleanup_run_callbacks
    rw [ih]
    cases d with
    | mk ck ph rq tl cb => cases cb <;> simp [clear_callback]

theorem cleanup_evict_eq (l : List TxDescriptor) : ∀ n,
    cleanup_evict n l =
      (l.drop (n - XILINX_DMA_TX_HISTORY),
       l.take (n - XILINX_DMA_TX_HISTORY)) := by
  induction l with
  | nil =>
    intro n
    unfold cleanup_evict
    split <;> simp
  | cons d rest ih =>
    intro n
    unfold cleanup_evict
    split
    · rename_i h
      dsimp only
      rw [ih (n - 1)]
      have hn : n - XILINX_DMA_TX_HISTORY =
          (n - 1 - XILINX_DMA_TX_HISTORY) + 1 := by
        omega
      rw [hn]
      simp
    · rename_i h
      have hz : n - XILINX_DMA_TX_HISTORY = 0 := by omega
      simp [hz]

theorem cleanup_eq (c : Chan) :
    xilinx_dma_chan_tx_completed_cleanup c =
      ({ c with completed_transactions := List.drop (c.completed_transactions.length - XILINX_DMA_TX_HISTORY) (c.completed_transactions.map clear_callback) },
       c.completed_transactions.filter fun d => d.hasCallback,
       List.take (c.completed_transactions.length - XILINX_DMA_TX_HISTORY)
         (c.completed_transactions.map clear_callback)) := by
  unfold xilinx_dma_chan_tx_completed_cleanup
  rw [cleanup_run_callbacks_eq]
  dsimp only
  rw [cleanup_evict_eq]

/-- C7: the completion processor invokes the callback of each completed
descriptor carrying one exactly once (the invoked list holds each such
descriptor once and nothing else), clears every callback reference so that
an immediately repeated run invokes nothing, and evicts oldest-first —
running dependency hooks on each evicted descriptor — until the completed
history holds at most `XILINX_DMA_TX_HISTORY` (32) descriptors. -/
theorem completed_cleanup_correct (c : Chan)
    (hnd : c.completed_transactions.Nodup) :
    (∀ d ∈ c.completed_transactions, d.hasCallback = true →
      (xilinx_dma_chan_tx_completed_cleanup c).2.1.count d = 1) ∧
    (∀ d ∈ (xilinx_dma_chan_tx_completed_cleanup c).2.1,
      d ∈ c.completed_transactions ∧ d.hasCallback = true) ∧
    (xilinx_dma_chan_tx_completed_cleanup
        (xilinx_dma_chan_tx_completed_cleanup c).1).2.1 = [] ∧
    (xilinx_dma_chan_tx_completed_cleanup
        c).1.completed_transactions.length ≤ XILINX_DMA_TX_HISTORY ∧
    (xilinx_dma_chan_tx_completed_cleanup c).2.2 ++
        (xilinx_dma_chan_tx_completed_cleanup c).1.completed_transactions =
      c.completed_transactions.map clear_callback ∧
    (xilinx_dma_chan_tx_completed_cleanup c).2.2.length =
      c.completed_transactions.length - XILINX_DMA_TX_HISTORY := by
  simp only [cleanup_eq]
  refine ⟨?_, ?_, ?_, ?_, ?_, ?_⟩
  · intro d hd hcb
    exact List.count_eq_one_of_mem (hnd.filter _)
      (List.mem_filter.2 ⟨hd, by simp [hcb]⟩)
  · intro d hd
    have := List.mem_filter.1 hd
    exact ⟨this.1, by simpa using this.2⟩
  · rw [List.filter_eq_nil_iff]
    intro d hd
    have hd' := List.mem_of_mem_drop hd
    rcases List.mem_map.1 hd' with ⟨e, _, he⟩
    simp [← he, clear_callback]
  · simp only [List.length_drop, List.length_map]
    omega
  · exact List.take_append_drop _ _
  · simp only [List.length_take, List.length_map]
    omega

/-- C7 (witness): cleaning up `sampleCleanupChan` invokes `sampleCbDesc`'s
callback exactly once, a repeated run invokes nothing, and the history
stays within the retention bound. -/
theorem completed_cleanup_correct_witness :
    (xilinx_dma_chan_tx_completed_cleanup sampleCleanupChan).2.1.count
        sampleCbDesc = 1 ∧
    (xilinx_dma_chan_tx_completed_cleanup
        (xilinx_dma_chan_tx_completed_cleanup sampleCleanupChan).1).2.1 = [] ∧
    (xilinx_dma_chan_tx_completed_cleanup
        sampleCleanupChan).1.completed_transactions.length ≤
      XILINX_DMA_TX_HISTORY :=
  have h := completed_cleanup_correct sampleCleanupChan (by decide)
  ⟨h.1 sampleCbDesc (by decide) rfl, h.2.2.1, h.2.2.2.1⟩

/-- C8: descriptor preparation returns no descriptor when the requested
direction differs from the channel's fixed direction, when the request has
a number of scatter-gather segments other than one, or when the single
segment's length exceeds the discovered maximum; on a single fitting
segment it returns a descriptor carrying the segment's address and length.
Submission on a channel not in the error state (with the cookie counter in
its normal range) assigns the next cookie — the previous counter value
plus one — to the descriptor, appends it to the tail of the pending queue,
and returns that cookie. -/
theorem prep_and_submit_contract (c : Chan) (sgl : List SgEntry)
    (dir : Direction) (resetOk : Bool) (d : TxDescriptor) :
    (dir ≠ c.direction → xilinx_dma_prep_slave_sg c sgl dir = none) ∧
    (sgl.length ≠ 1 → xilinx_dma_prep_slave_sg c sgl dir = none) ∧
    (∀ sg, sgl = [sg] → sg.dma_length > c.max_transaction_length →
      xilinx_dma_prep_slave_sg c sgl dir = none) ∧
    (∀ sg, sgl = [sg] → dir = c.direction →
      sg.dma_length ≤ c.max_transaction_length →
      xilinx_dma_prep_slave_sg c sgl dir =
        some { cookie := 0
               phys := sg.dma_address
               requested_length := sg.dma_length
               transferred_length := 0
               hasCallback := false }) ∧
    (c.status ≠ ChanStatus.error → 1 ≤ c.cookie → c.cookie < 2 ^ 31 - 1 →
      xilinx_dma_tx_submit resetOk d c =
        (c.cookie + 1,
         { c with
           cookie := c.cookie + 1
           pending_transactions :=
             c.pending_transactions ++ [{ d with cookie := c.cookie + 1 }] })) := by
  refine ⟨?_, ?_, ?_, ?_, ?_⟩
  · intro h
    unfold xilinx_dma_prep_slave_sg
    rw [if_pos h]
  · intro h
    unfold xilinx_dma_prep_slave_sg
    by_cases hd : dir ≠ c.direction
    · rw [if_pos hd]
    · rw [if_neg hd, if_pos h]
  · intro sg hsgl hlen
    subst hsgl
    unfold xilinx_dma_prep_slave_sg
    by_cases hd : dir ≠ c.direction
    · rw [if_pos hd]
    · rw [if_neg hd]
      simp [hlen]
  · intro sg hsgl hdir hle
    subst hsgl
    unfold xilinx_dma_prep_slave_sg
    rw [if_neg (by simp [hdir])]
    simp [Nat.not_lt.2 hle]
  · intro hst h1 h2
    unfold xilinx_dma_tx_submit dma_cookie_assign DMA_MIN_COOKIE
    rw [if_neg hst]
    have hge : ¬ c.cookie + 1 ≥ 2 ^ 31 := by omega
    have hlt : ¬ c.cookie + 1 < 1 := by omega
    simp only [hge, if_false, ite_false, hlt]

/-- C8 (witness): preparing a single 4096-byte segment on the concrete
device-to-memory channel succeeds, and submitting `sampleDesc` on it
(cookie counter at 2) returns cookie 3 with the descriptor appended to the
pending tail. -/
theorem prep_and_submit_contract_witness :
    xilinx_dma_prep_slave_sg sampleChan [⟨0x30000, 4096⟩] Direction.devToMem =
      some { cookie := 0
             phys := 0x30000
             requested_length := 4096
             transferred_length := 0
             hasCallback := false } ∧
    xilinx_dma_tx_submit true sampleDesc sampleChan =
      (3,
       { sampleChan with
         cookie := 3
         pending_transactions :=
           sampleChan.pending_transactions ++ [{ sampleDesc with cookie := 3 }] }) :=
  have h := prep_and_submit_contract sampleChan [⟨0x30000, 4096⟩]
    Direction.devToMem true sampleDesc
  ⟨h.2.2.2.1 ⟨0x30000, 4096⟩ rfl rfl (by decide),
   h.2.2.2.2 (by decide) (by decide) (by decide)⟩

/-- C9: during channel probing (after a successful hardware reset, with
the core still reset and halted) the discovery step writes all-ones
(0xFFFFFFFF) to the byte-transfer-count register and takes the read-back
as the maximum transfer length; a read-back of zero is a fatal `-EIO`
initialization failure (the channel is never registered), and a nonzero
read-back becomes the channel's discovered maximum. -/
theorem probe_discovery_correct (resetOk : Bool) (btt : Nat) :
    (resetOk = true →
      (xilinx_dma_chan_probe_discovery resetOk btt).1.head? = some 0xFFFFFFFF ∧
      ((xilinx_dma_chan_probe_discovery resetOk btt).2 = Except.error (-5) ↔
        btt = 0) ∧
      (btt ≠ 0 →
        (xilinx_dma_chan_probe_discovery resetOk btt).2 = Except.ok btt)) ∧
    (resetOk = false →
      (xilinx_dma_chan_probe_discovery resetOk btt).2 = Except.error (-16)) := by
  unfold xilinx_dma_chan_probe_discovery
  constructor
  · rintro rfl
    by_cases h : btt = 0 <;> simp [h]
  · rintro rfl
    simp

/-- C9 (witness): with the reset succeeding and a zero read-back, the
discovery fails with `-EIO`. -/
theorem probe_discovery_correct_witness :
    (xilinx_dma_chan_probe_discovery true 0).2 = Except.error (-5) :=
  (((probe_discovery_correct true 0).1 rfl).2.1).mpr rfl

end XilinxDma

namespace AxisReader

/-- C10: opening the streaming character device while it is already open
fails with `-EBUSY` and changes nothing; opening with fewer than two free
transactions fails with `-EFAULT` and moves nothing; otherwise open moves
exactly the first two free transactions to the pending-list tail, submits
those two, and marks the channel open. -/
theorem arf_open_contract (ch : ArChannel) :
    (ch.is_open = true → arf_open ch = (OpenResult.ebusy, ch)) ∧
    (ch.is_open = false → ch.free_transactions.length < 2 →
      arf_open ch = (OpenResult.efault, ch)) ∧
    (∀ t1 t2 rest, ch.is_open = false →
      ch.free_transactions = t1 :: t2 :: rest →
      arf_open ch =
        (OpenResult.ok t1 t2,
         { ch with
           free_transactions := rest
           pending_transactions := ch.pending_transactions ++ [t1, t2]
           is_open := true })) := by
  refine ⟨?_, ?_, ?_⟩
  · intro h
    unfold arf_open
    rw [if_pos h]
  · intro h hlen
    unfold arf_open list_count
    rw [if_neg (by simp [h]), if_pos hlen]
  · intro t1 t2 rest h hfree
    unfold arf_open list_count
    rw [if_neg (by simp [h]), hfree]
    rw [if_neg (by simp)]

/-- C10 (witness): opening `sampleOpenChan` moves its two free
transactions to pending, submits them, and marks the channel open. -/
theorem arf_open_contract_witness :
    arf_open sampleOpenChan =
      (OpenResult.ok sampleArTx sampleOldTx,
       { sampleOpenChan with
         free_transactions := []
         pending_transactions := [sampleArTx, sampleOldTx]
         is_open := true }) :=
  (arf_open_contract sampleOpenChan).2.2 sampleArTx sampleOldTx [] rfl rfl

end AxisReader
